import Mathlib

/-!
Verification development for the MCP HTTP wrapper (`http-wrapper.js`).

The wrapper keeps a single MCP client connection and exposes HTTP routes.
Its mutable globals are `mcpClient`, `isInitializing`, `isConnected`,
`reconnectAttempts`, plus the pending `setTimeout` reconnect callbacks and
the active `setInterval` health-check timers.  We embed these globals as an
explicit record `Sys` and each of the wrapper's functions
(`initializeMcpClient`, `setupConnectionMonitoring`'s interval callback,
`sendToMcpServer`, the `/tools/get-cookie` route handler) as a pure state
transformer.  External non-determinism (whether `mcpClient.connect`
succeeds, what an underlying `callTool`/`sendRequest` returns, whether
`close` throws) is supplied as explicit oracle parameters.  Machine-level
concerns (real timers, the event loop) are abstracted by treating each
top-level callback invocation as one atomic step of a transition system.
-/

/-- Outcome of one underlying MCP client call (`callTool` or `sendRequest`):
either a result value (abstracted as a `Nat` payload) or a thrown error
carrying its `message` string. -/
inductive LinkOutcome where
  | ok (v : Nat)
  | err (msg : String)
deriving DecidableEq

/-- Oracle data consumed by one attempt inside `sendToMcpServer`: the outcome
of the underlying client call, and — should that attempt fail with a
connection-classified error — whether the `mcpClient.connect` inside the
triggered `initializeMcpClient` succeeds and whether the `close` of the stale
client succeeds. -/
structure Attempt where
  outcome : LinkOutcome
  reconnectOk : Bool
  closeOk : Bool
deriving DecidableEq

/-- Result of a `sendToMcpServer` invocation: a returned value, a thrown
error (its `message`), or `outOfTrace` when the supplied oracle trace is too
short to determine the outcome (a model artifact, excluded by hypotheses). -/
inductive SendResult where
  | ok (v : Nat)
  | err (msg : String)
  | outOfTrace
deriving DecidableEq

/-- The wrapper's mutable global state, plus instrumentation.

Fields mirroring the JavaScript globals:
`mcpClient` (the current `Client` object, identified by a numeric id, `none`
when `null`), `isInitializing`, `isConnected`, `reconnectAttempts`.

`pending` counts scheduled-but-not-yet-fired `setTimeout` reconnect
callbacks; `timers` counts live `setInterval` health-check timers;
`startupDone` records whether the one startup `initializeMcpClient` call
(from `server.listen`) has happened.

Instrumentation: `nextId` generates fresh client ids, `openHandles` lists
client objects created and not yet closed, `connects` counts
`mcpClient.connect` attempts. -/
structure Sys where
  mcpClient : Option Nat
  nextId : Nat
  isInitializing : Bool
  isConnected : Bool
  reconnectAttempts : Nat
  pending : Nat
  timers : Nat
  startupDone : Bool
  openHandles : List Nat
  connects : Nat
deriving DecidableEq

/-- MAX_RECONNECT_ATTEMPTS from the source. -/
def MAX_RECONNECT_ATTEMPTS : Nat := 5

/-- RECONNECT_DELAY (ms) from the source; the delay length plays no role in
the untimed model. -/
def RECONNECT_DELAY : Nat := 2000

/-- Initial global state at process start: `mcpClient = null`,
`isInitializing = false`, `isConnected = false`, `reconnectAttempts = 0`,
no scheduled retry, no health timer. -/
def Sys.init : Sys :=
  { mcpClient := none
    nextId := 0
    isInitializing := false
    isConnected := false
    reconnectAttempts := 0
    pending := 0
    timers := 0
    startupDone := false
    openHandles := []
    connects := 0 }

/-- Lines 86–93 of the wrapper: `if (mcpClient) { try { await mcpClient.close() }
catch (closeError) { log } mcpClient = null; }`.  Closing removes the handle
from the open set and drops the reference; a `close` error is caught and only
logged, so the result does not depend on `closeOk`. -/
def closeStaleClient (closeOk : Bool) (s : Sys) : Sys :=
  match s.mcpClient with
  | none => s
  | some c =>
      -- close succeeds or its error is swallowed; either way the reference
      -- is dropped and the handle is no longer usable
      let _ := closeOk
      { s with openHandles := s.openHandles.erase c, mcpClient := none }

/-- Lines 140–144 of the wrapper: `setupConnectionMonitoring` returns early
when `mcpClient` is null, otherwise registers one new `setInterval`
health-check timer. -/
def setupConnectionMonitoring (s : Sys) : Sys :=
  if s.mcpClient.isNone then s
  else { s with timers := s.timers + 1 }

/-- Lines 68–137 of the wrapper: `initializeMcpClient`.
Returns the function's boolean result and the post state.
`connectOk` is the oracle for `await mcpClient.connect(transport)`;
`closeOk` for the stale client's `close()`.

Structure mirrored from the source: the `isInitializing` re-entrancy guard,
the already-connected short-circuit, closing the stale client, creating a
fresh `Client`, the connect attempt; on success `isConnected = true`,
`reconnectAttempts = 0` and `setupConnectionMonitoring()`; on failure
`isConnected = false` and, when `reconnectAttempts < MAX_RECONNECT_ATTEMPTS`,
one scheduled `setTimeout` retry; the guard is cleared in `finally` on both
exits. -/
def initializeMcpClient (connectOk closeOk : Bool) (s : Sys) : Bool × Sys :=
  if s.isInitializing then
    (false, s)
  else if s.isConnected && s.mcpClient.isSome then
    (true, s)
  else
    let s0 := { s with isInitializing := true }
    let s1 := closeStaleClient closeOk s0
    let s2 := { s1 with
                mcpClient := some s1.nextId
                openHandles := s1.openHandles ++ [s1.nextId]
                nextId := s1.nextId + 1 }
    let s3 := { s2 with connects := s2.connects + 1 }
    if connectOk then
      let s4 := { s3 with isConnected := true, reconnectAttempts := 0 }
      let s5 := setupConnectionMonitoring s4
      (true, { s5 with isInitializing := false })
    else
      let s4 := { s3 with isConnected := false }
      let s5 :=
        if s4.reconnectAttempts < MAX_RECONNECT_ATTEMPTS then
          { s4 with pending := s4.pending + 1 }
        else
          s4
      (false, { s5 with isInitializing := false })

/-- Executable substring test on character lists: `containsSub pat l` is
true when `pat` occurs contiguously inside `l` (the semantics of
JavaScript's `String.prototype.includes`). -/
def containsSub (pat : List Char) : List Char → Bool
  | [] => pat.isEmpty
  | c :: rest => pat.isPrefixOf (c :: rest) || containsSub pat rest

/-- Line 194 of the wrapper: an error is classified as connection-related
when its message contains the substring `connection` or `closed`. -/
def isConnectionError (m : String) : Bool :=
  containsSub "connection".toList m.toList || containsSub "closed".toList m.toList

/-- The JSON-RPC message a forwarded operation carries (`method`, the tool
`name` and its `url` argument for `tools/call` messages). -/
structure McpMessage where
  method : String
  name : String
  urlArg : String
deriving DecidableEq

/-- Lines 168–205 of the wrapper: `sendToMcpServer(message)`.
Returns the result (value / thrown error message), the post state, and the
number of underlying client calls made.

Mirrored structure: the not-connected guard throws
`MCP client not initialized or not connected`; a `tools/call` message goes
through `callTool` and anything else through `sendRequest` (both abstracted
by the attempt's `outcome`); a failure whose message contains `connection`
or `closed` sets `isConnected = false`, runs `initializeMcpClient()` once
and, if the state is then connected, retries by a full recursive call whose
result (or thrown error) propagates as is; every other failure path throws
the original message wrapped as `MCP client error: <message>`. -/
def sendToMcpServer (msg : McpMessage) : List Attempt → Sys → SendResult × Sys × Nat
  | trace, s =>
    if s.mcpClient.isNone || !s.isConnected then
      (.err "MCP client not initialized or not connected", s, 0)
    else
      match trace with
      | [] => (.outOfTrace, s, 0)
      | a :: rest =>
        match a.outcome with
        | .ok v => (.ok v, s, 1)
        | .err m =>
          if isConnectionError m then
            let s1 := { s with isConnected := false }
            let s2 := (initializeMcpClient a.reconnectOk a.closeOk s1).2
            if s2.isConnected && s2.mcpClient.isSome then
              let r := sendToMcpServer msg rest s2
              (r.1, r.2.1, r.2.2 + 1)
            else
              (.err ("MCP client error: " ++ m), s2, 1)
          else
            (.err ("MCP client error: " ++ m), s, 1)

/-- Lines 144–165 of the wrapper: the body of the `setInterval` health-check
callback.  Applicable only when at least one timer is live (`timers ≠ 0`).
If `mcpClient` is null or `isConnected` is false the ticking timer clears
itself; otherwise it sends a ping (`pingOk` oracle); on ping failure it sets
`isConnected = false`, clears its own interval and runs
`initializeMcpClient()` (oracles `reconnectOk`, `closeOk`). -/
def healthTick (pingOk reconnectOk closeOk : Bool) (s : Sys) : Sys :=
  if s.timers = 0 then s
  else if s.mcpClient.isNone || !s.isConnected then
    { s with timers := s.timers - 1 }
  else if pingOk then s
  else
    let s1 := { s with isConnected := false, timers := s.timers - 1 }
    (initializeMcpClient reconnectOk closeOk s1).2

/-- Lines 125–128 of the wrapper: the `setTimeout` reconnect callback.
Applicable only when a scheduled retry is pending; it increments
`reconnectAttempts` and calls `initializeMcpClient()`. -/
def retryFire (connectOk closeOk : Bool) (s : Sys) : Sys :=
  if s.pending = 0 then s
  else
    let s1 := { s with
                pending := s.pending - 1
                reconnectAttempts := s.reconnectAttempts + 1 }
    (initializeMcpClient connectOk closeOk s1).2

/-- Lines 378–380 of the wrapper: the one startup call to
`initializeMcpClient()` scheduled from `server.listen`. -/
def startupInit (connectOk closeOk : Bool) (s : Sys) : Sys :=
  if s.startupDone then s
  else (initializeMcpClient connectOk closeOk { s with startupDone := true }).2

/-- One atomic event of the wrapper's event loop: the startup initialize
call, a scheduled reconnect callback firing, a health-check timer tick, or
a forwarded `sendToMcpServer` call (as made by the HTTP handler).  Each
event carries the oracle outcomes of the external operations it performs. -/
inductive Event where
  | startup (connectOk closeOk : Bool)
  | retry (connectOk closeOk : Bool)
  | tick (pingOk reconnectOk closeOk : Bool)
  | forward (msg : McpMessage) (trace : List Attempt)
deriving DecidableEq

/-- One step of the wrapper's event loop.  Events whose triggering condition
does not hold (no pending retry, no live timer, startup already done) leave
the state unchanged, since the corresponding callback does not exist. -/
def stepEv (s : Sys) (e : Event) : Sys :=
  match e with
  | .startup c k => startupInit c k s
  | .retry c k => retryFire c k s
  | .tick p r k => healthTick p r k s
  | .forward msg tr => (sendToMcpServer msg tr s).2.1

/-- State reached from process start by a given event sequence. -/
def runEv (es : List Event) : Sys :=
  es.foldl stepEv Sys.init

/-- A state is reachable when some event sequence from process start
produces it. -/
def ReachableSys (s : Sys) : Prop :=
  ∃ es : List Event, runEv es = s

/-! ## HTTP layer: the `/tools/get-cookie` route handler -/

/-- A JavaScript value found in the `url` field of the parsed request body:
absent (`undefined`), JSON `null`, a string, a number or a boolean. -/
inductive UrlField where
  | absent
  | null
  | str (s : String)
  | num (n : Int)
  | bool (b : Bool)
deriving DecidableEq

/-- JavaScript truthiness of a `url` field value, as tested by
`if (!targetUrl)` on line 258: `undefined`, `null`, the empty string, `0`
and `false` are falsy. -/
def UrlField.truthy : UrlField → Bool
  | .absent => false
  | .null => false
  | .str s => !(s == "")
  | .num n => !(n == 0)
  | .bool b => b

/-- Outcome of `JSON.parse(body)` followed by the destructuring
`const { url: targetUrl } = ...` on line 256: `invalid` when `JSON.parse`
throws, `jsNull` when the body parses to JSON `null` (destructuring then
throws a TypeError, caught by the same `catch (parseError)`), and `obj u`
when destructuring yields `url` value `u` (for objects, and for primitives
other than null, where `url` is absent). -/
inductive ParsedBody where
  | invalid
  | jsNull
  | obj (url : UrlField)
deriving DecidableEq

/-- An HTTP response of the `/tools/get-cookie` handler, by shape:
400 `{error: 'Invalid JSON in request body'}`,
400 `{error: 'URL parameter is required'}`,
503 `{error: 'MCP client not ready', message, status: {isConnected,
isInitializing, reconnectAttempts}}`,
200 `{success: true, message, response, request}`,
500 `{error, details, suggestion}`,
and `modelIncomplete` for the model-artifact `outOfTrace` case. -/
inductive HttpResponse where
  | badRequestJson
  | badRequestUrl
  | notReady (isConnected isInitializing : Bool) (reconnectAttempts : Nat)
  | ok200 (message : String) (response : Nat) (request : McpMessage)
  | serverError (details : String) (suggestion : String)
  | modelIncomplete
deriving DecidableEq

/-- HTTP status code of each response shape. -/
def HttpResponse.statusCode : HttpResponse → Nat
  | .badRequestJson => 400
  | .badRequestUrl => 400
  | .notReady _ _ _ => 503
  | .ok200 _ _ _ => 200
  | .serverError _ _ => 500
  | .modelIncomplete => 0

/-- String rendering of a `url` value for the success message (JavaScript
template-literal coercion); only the string case matters for the claims. -/
def UrlField.render : UrlField → String
  | .absent => "undefined"
  | .null => "null"
  | .str s => s
  | .num n => toString n
  | .bool b => toString b

/-- Lines 247–331 of the wrapper: the `POST /tools/get-cookie` handler body
(after the request body has been read and parsed — `pb` is the outcome of
`JSON.parse` plus destructuring).  Returns the response, the post state and
the number of underlying MCP client calls made.

Mirrored structure: parse failure → 400 invalid JSON; falsy `targetUrl` →
400 URL required; `!mcpClient || !isConnected` → 503 with the connection
status snapshot; otherwise it builds the `tools/call` message for
`chrome_get_cookie` with argument `{url: targetUrl}` and calls
`sendToMcpServer`; a returned value → 200 echoing the result under
`response` and the message under `request`; a thrown error → 500 with its
message under `details`. -/
def handleGetCookie (pb : ParsedBody) (trace : List Attempt) (s : Sys) :
    HttpResponse × Sys × Nat :=
  match pb with
  | .invalid => (.badRequestJson, s, 0)
  | .jsNull => (.badRequestJson, s, 0)
  | .obj u =>
    if !u.truthy then
      (.badRequestUrl, s, 0)
    else if s.mcpClient.isNone || !s.isConnected then
      (.notReady s.isConnected s.isInitializing s.reconnectAttempts, s, 0)
    else
      let mcpMessage : McpMessage :=
        { method := "tools/call", name := "chrome_get_cookie", urlArg := u.render }
      match sendToMcpServer mcpMessage trace s with
      | (.ok v, s1, n) =>
          (.ok200 ("Cookies retrieved from " ++ u.render) v mcpMessage, s1, n)
      | (.err m, s1, n) =>
          (.serverError m ("Make sure the MCP server is running at " ++
            "http://127.0.0.1:12306/mcp"), s1, n)
      | (.outOfTrace, s1, n) => (.modelIncomplete, s1, n)

/-! ## Reachable-state invariants -/

/-- Invariant of the wrapper's global state maintained by every event-loop
step: the initialize guard is clear between events; the reconnect counter
never exceeds `MAX_RECONNECT_ATTEMPTS`; at most one reconnect callback is
scheduled at a time, and only while the counter is still below the maximum;
a connected state has a zero counter and no scheduled retry; before the
startup initialize call nothing has happened yet; the open client handles
are exactly the current `mcpClient` reference; and client ids are fresh. -/
def GoodState (s : Sys) : Prop :=
  s.isInitializing = false ∧
  s.reconnectAttempts ≤ MAX_RECONNECT_ATTEMPTS ∧
  s.pending ≤ 1 ∧
  (1 ≤ s.pending → s.reconnectAttempts < MAX_RECONNECT_ATTEMPTS) ∧
  (s.isConnected = true → s.reconnectAttempts = 0 ∧ s.pending = 0 ∧ s.startupDone = true) ∧
  (s.startupDone = false →
    s.pending = 0 ∧ s.isConnected = false ∧ s.timers = 0 ∧ s.reconnectAttempts = 0) ∧
  s.openHandles = s.mcpClient.toList ∧
  (∀ c, s.mcpClient = some c → c < s.nextId)

/-- An `initializeMcpClient` call made from any event-loop context (guard
clear, no pending retry, fresh handles) re-establishes the invariant. -/
theorem initializeMcpClient_good (cok clk : Bool) (s : Sys)
    (hflag : s.isInitializing = false)
    (hpend : s.pending = 0)
    (hra : s.reconnectAttempts ≤ MAX_RECONNECT_ATTEMPTS)
    (hconn : s.isConnected = true → s.reconnectAttempts = 0)
    (hdone : s.startupDone = true)
    (hH : s.openHandles = s.mcpClient.toList)
    (hId : ∀ c, s.mcpClient = some c → c < s.nextId) :
    GoodState (initializeMcpClient cok clk s).2 := by
  by_cases hg : (s.isConnected && s.mcpClient.isSome) = true
  · have hc : s.isConnected = true := by
      rw [Bool.and_eq_true] at hg
      exact hg.1
    have hr : (initializeMcpClient cok clk s).2 = s := by
      simp [initializeMcpClient, hflag, hg]
    rw [hr]
    exact ⟨hflag, hra, by omega, fun _ => by omega,
      fun _ => ⟨hconn hc, hpend, hdone⟩, fun h => by simp [hdone] at h, hH, hId⟩
  · rcases hm : s.mcpClient with _ | c <;>
    cases cok <;>
    simp only [initializeMcpClient, closeStaleClient, setupConnectionMonitoring,
      hflag, hg, hm, GoodState, MAX_RECONNECT_ATTEMPTS, Option.toList] at * <;>
    (try simp_all [Nat.lt_succ_self, apply_ite]) <;>
    (try split) <;>
    simp_all

/-- A `sendToMcpServer` call preserves the event-loop invariant. -/
theorem sendToMcpServer_good (msg : McpMessage) (tr : List Attempt) (s : Sys)
    (h : GoodState s) : GoodState (sendToMcpServer msg tr s).2.1 := by
  induction tr generalizing s with
  | nil =>
    unfold sendToMcpServer
    split
    · exact h
    · exact h
  | cons a rest ih =>
    unfold sendToMcpServer
    split
    · exact h
    · rename_i hguard
      have hcs : s.mcpClient.isSome = true ∧ s.isConnected = true := by
        rcases hsc : s.mcpClient with _ | c <;> rcases hic : s.isConnected <;>
          simp [hsc, hic] at hguard ⊢
      obtain ⟨hra0, hpend0, hdone⟩ := h.2.2.2.2.1 hcs.2
      rcases ho : a.outcome with v | m
      · simp only [ho]
        exact h
      · simp only [ho]
        by_cases hce : isConnectionError m = true
        · rw [if_pos hce]
          have hg2 : GoodState (initializeMcpClient a.reconnectOk a.closeOk
              { s with isConnected := false }).2 := by
            refine initializeMcpClient_good _ _ _ h.1 hpend0 h.2.1 ?_ hdone h.2.2.2.2.2.2.1
              h.2.2.2.2.2.2.2
            intro hfalse
            simp at hfalse
          split
          · exact ih _ hg2
          · exact hg2
        · rw [if_neg hce]
          exact h

/-- Every event-loop step preserves the invariant. -/
theorem stepEv_good (s : Sys) (e : Event) (h : GoodState s) : GoodState (stepEv s e) := by
  have hM : MAX_RECONNECT_ATTEMPTS = 5 := rfl
  obtain ⟨h1, h2, h3, h4, h5, h6, h7, h8⟩ := h
  cases e with
  | startup c k =>
    simp only [stepEv, startupInit]
    by_cases hd : s.startupDone = true
    · rw [if_pos hd]
      exact ⟨h1, h2, h3, h4, h5, h6, h7, h8⟩
    · have hd0 : s.startupDone = false := by
        rcases hv : s.startupDone <;> simp_all
      obtain ⟨hp0, hc0, _, hr0⟩ := h6 hd0
      rw [if_neg hd]
      exact initializeMcpClient_good c k _ h1 hp0 h2 (fun _ => hr0) rfl h7 h8
  | retry c k =>
    simp only [stepEv, retryFire]
    by_cases hp : s.pending = 0
    · rw [if_pos hp]
      exact ⟨h1, h2, h3, h4, h5, h6, h7, h8⟩
    · have hp1 : 1 ≤ s.pending := by omega
      have hlt := h4 hp1
      have hc0 : s.isConnected = false := by
        rcases hv : s.isConnected
        · rfl
        · exact absurd (h5 hv).2.1 (by omega)
      have hdone : s.startupDone = true := by
        rcases hv : s.startupDone
        · exact absurd (h6 hv).1 (by omega)
        · rfl
      rw [if_neg hp]
      refine initializeMcpClient_good c k _ h1 ?_ ?_ ?_ hdone h7 h8
      · show s.pending - 1 = 0
        omega
      · show s.reconnectAttempts + 1 ≤ MAX_RECONNECT_ATTEMPTS
        omega
      · intro hx
        have : s.isConnected = true := hx
        simp [hc0] at this
  | tick p r k =>
    simp only [stepEv, healthTick]
    by_cases ht : s.timers = 0
    · rw [if_pos ht]
      exact ⟨h1, h2, h3, h4, h5, h6, h7, h8⟩
    · have hdone : s.startupDone = true := by
        rcases hv : s.startupDone
        · exact absurd (h6 hv).2.2.1 ht
        · rfl
      rw [if_neg ht]
      split
      · exact ⟨h1, h2, h3, h4, fun hx => h5 hx, fun hx => by simp_all, h7, h8⟩
      · rename_i hguard
        have hcs : s.mcpClient.isSome = true ∧ s.isConnected = true := by
          rcases hsc : s.mcpClient with _ | cc <;> rcases hic : s.isConnected <;>
            simp [hsc, hic] at hguard ⊢
        obtain ⟨hra0, hpend0, _⟩ := h5 hcs.2
        split
        · exact ⟨h1, h2, h3, h4, h5, h6, h7, h8⟩
        · refine initializeMcpClient_good r k _ h1 hpend0 h2 ?_ hdone h7 h8
          intro hx
          have : False := by simp at hx
          exact this.elim
  | forward msg tr =>
    exact sendToMcpServer_good msg tr s ⟨h1, h2, h3, h4, h5, h6, h7, h8⟩

/-- Every state produced by an event sequence from process start satisfies
the invariant. -/
theorem runEv_good (es : List Event) : GoodState (runEv es) := by
  have hfold : ∀ (l : List Event) (s : Sys), GoodState s → GoodState (l.foldl stepEv s) := by
    intro l
    induction l with
    | nil => intro s hs; exact hs
    | cons e rest ih =>
      intro s hs
      exact ih _ (stepEv_good s e hs)
  refine hfold es Sys.init ?_
  refine ⟨rfl, ?_, ?_, ?_, ?_, ?_, ?_, ?_⟩ <;> simp [Sys.init, MAX_RECONNECT_ATTEMPTS]

/-- In a state where startup has happened, nothing is scheduled, no timer is
live and the connection is down, every event is a no-op: no callback exists
that could fire, and a forwarded call fails on its not-connected guard
without touching the state. -/
theorem stepEv_fix (s : Sys) (e : Event)
    (hdone : s.startupDone = true) (hp : s.pending = 0)
    (ht : s.timers = 0) (hc : s.isConnected = false) :
    stepEv s e = s := by
  cases e with
  | startup c k => simp [stepEv, startupInit, hdone]
  | retry c k => simp [stepEv, retryFire, hp]
  | tick p r k => simp [stepEv, healthTick, ht]
  | forward msg tr =>
    show (sendToMcpServer msg tr s).2.1 = s
    unfold sendToMcpServer
    rw [if_pos (by simp [hc])]

/-- Iterated form of `stepEv_fix`: from such a state no event sequence
changes anything. -/
theorem runFrom_fix (s : Sys)
    (hdone : s.startupDone = true) (hp : s.pending = 0)
    (ht : s.timers = 0) (hc : s.isConnected = false) :
    ∀ es : List Event, es.foldl stepEv s = s := by
  intro es
  induction es with
  | nil => rfl
  | cons e rest ih =>
    rw [List.foldl_cons, stepEv_fix s e hdone hp ht hc]
    exact ih

/-! ## Concrete states used in counterexamples and witnesses -/

/-- A generic forwarded `tools/call` message used in concrete runs. -/
def pingMsg : McpMessage :=
  { method := "tools/call", name := "chrome_get_cookie", urlArg := "https://example.com" }

/-- The state right after a successful startup initialize: connected, one
health timer, client id 0. -/
def connectedSys : Sys := runEv [.startup true true]

/-- The state after the startup open attempt and all five scheduled
reconnect attempts have failed: six failed connect attempts in total. -/
def exhaustedSys : Sys :=
  runEv [.startup false true, .retry false true, .retry false true,
    .retry false true, .retry false true, .retry false true]

/-! ## Claims -/

/-- C4: a call to `initializeMcpClient` made while the `isInitializing`
guard is set returns `false` immediately and leaves the entire state
unchanged — connection state, reconnect counter, client handle, open-handle
set and connect-attempt count are all those of the input state, and nothing
is scheduled. -/
theorem C4_initialize_reentrancy_guard (cok clk : Bool) (s : Sys)
    (h : s.isInitializing = true) :
    initializeMcpClient cok clk s = (false, s) := by
  simp [initializeMcpClient, h]

/-- Witness for C4 at a concrete in-progress state. -/
theorem C4_witness :
    initializeMcpClient true true { Sys.init with isInitializing := true }
      = (false, { Sys.init with isInitializing := true }) :=
  C4_initialize_reentrancy_guard true true { Sys.init with isInitializing := true } rfl

/-- C5: the `isInitializing` guard is cleared on every exit path of
`initializeMcpClient` (already-connected short-circuit, successful connect,
failed/thrown connect — the `finally` clause), so after any completed
initialize-attempt the guard is false again. -/
theorem C5_guard_always_cleared (cok clk : Bool) (s : Sys)
    (h : s.isInitializing = false) :
    (initializeMcpClient cok clk s).2.isInitializing = false := by
  by_cases hg : (s.isConnected && s.mcpClient.isSome) = true
  · simp [initializeMcpClient, h, hg]
  · cases cok <;> simp [initializeMcpClient, h, hg]

/-- Witness for C5 on the initial state. -/
theorem C5_witness :
    (initializeMcpClient false true Sys.init).2.isInitializing = false :=
  C5_guard_always_cleared false true Sys.init rfl

/-- C6: an `initializeMcpClient` call that actually opens the connection
(guard clear, not already connected, connect succeeds) returns `true`, and
afterwards the state is connected, the reconnect counter is 0 and a fresh
health timer has been started. -/
theorem C6_initialize_success_postcondition (clk : Bool) (s : Sys)
    (hflag : s.isInitializing = false)
    (hg : (s.isConnected && s.mcpClient.isSome) = false) :
    (initializeMcpClient true clk s).1 = true ∧
    (initializeMcpClient true clk s).2.isConnected = true ∧
    (initializeMcpClient true clk s).2.reconnectAttempts = 0 ∧
    (initializeMcpClient true clk s).2.timers = s.timers + 1 := by
  have hg' : ¬((s.isConnected && s.mcpClient.isSome) = true) := by simp [hg]
  rcases hm : s.mcpClient with _ | c
  · simp [initializeMcpClient, closeStaleClient, setupConnectionMonitoring, hflag, hg', hm]
  · have hic : s.isConnected = false := by
      rcases hv : s.isConnected
      · rfl
      · simp [hv, hm] at hg
    simp [initializeMcpClient, closeStaleClient, setupConnectionMonitoring,
      hflag, hg', hm, hic]

/-- Witness for C6 on the initial state. -/
theorem C6_witness :
    (initializeMcpClient true true Sys.init).1 = true ∧
    (initializeMcpClient true true Sys.init).2.isConnected = true ∧
    (initializeMcpClient true true Sys.init).2.reconnectAttempts = 0 ∧
    (initializeMcpClient true true Sys.init).2.timers = Sys.init.timers + 1 :=
  C6_initialize_success_postcondition true Sys.init rfl rfl

/-- C7: a forwarded operation attempted while `mcpClient` is null or the
state is not connected fails immediately with the not-ready error, makes no
underlying call and changes no state; and at the HTTP layer the same
condition (with a present `url`) yields a 503 response with no backend call
and no state change — in particular the handler performs no retry. -/
theorem C7_not_ready_rejection (msg : McpMessage) (tr : List Attempt) (s : Sys) (u : UrlField)
    (hg : (s.mcpClient.isNone || !s.isConnected) = true)
    (hu : u.truthy = true) :
    sendToMcpServer msg tr s
        = (.err "MCP client not initialized or not connected", s, 0) ∧
    handleGetCookie (.obj u) tr s
        = (.notReady s.isConnected s.isInitializing s.reconnectAttempts, s, 0) ∧
    (handleGetCookie (.obj u) tr s).1.statusCode = 503 := by
  refine ⟨?_, ?_, ?_⟩
  · unfold sendToMcpServer
    rw [if_pos hg]
  · simp [handleGetCookie, hu, hg]
  · simp [handleGetCookie, hu, hg, HttpResponse.statusCode]

/-- Witness for C7 on the initial (disconnected) state. -/
theorem C7_witness :
    sendToMcpServer pingMsg [] Sys.init
        = (.err "MCP client not initialized or not connected", Sys.init, 0) ∧
    handleGetCookie (.obj (.str "https://example.com")) [] Sys.init
        = (.notReady false false 0, Sys.init, 0) ∧
    (handleGetCookie (.obj (.str "https://example.com")) [] Sys.init).1.statusCode = 503 :=
  C7_not_ready_rejection pingMsg [] Sys.init (.str "https://example.com") rfl rfl

/-- C10: for a valid-JSON body, any falsy `url` value — absent, JSON null,
or the empty string — produces the identical 400 URL-required response with
no state change and no backend call: the check is JavaScript truthiness of
the parsed value, not presence of the field. -/
theorem C10_falsy_url_uniform_400 (s : Sys) (tr : List Attempt) :
    handleGetCookie (.obj .absent) tr s = (.badRequestUrl, s, 0) ∧
    handleGetCookie (.obj .null) tr s = (.badRequestUrl, s, 0) ∧
    handleGetCookie (.obj (.str "")) tr s = (.badRequestUrl, s, 0) ∧
    HttpResponse.statusCode .badRequestUrl = 400 := by
  refine ⟨?_, ?_, ?_, rfl⟩ <;> simp [handleGetCookie, UrlField.truthy]

/-- C1 counterexample: from a connected state, an original call whose first
attempt fails with a connection-classified error, whose retry (after a
successful reconnection) fails the same way, and whose second retry fails
with a plain error `boom`, makes three underlying attempts — so more than
the claimed single retry happened — and surfaces the error rewrapped as
`MCP client error: boom` rather than unchanged. -/
theorem C1_counterexample :
    (sendToMcpServer pingMsg
        [⟨.err "connection closed", true, true⟩, ⟨.err "connection refused", true, true⟩,
         ⟨.err "boom", true, true⟩] connectedSys).1
      = .err "MCP client error: boom" ∧
    (sendToMcpServer pingMsg
        [⟨.err "connection closed", true, true⟩, ⟨.err "connection refused", true, true⟩,
         ⟨.err "boom", true, true⟩] connectedSys).2.2 = 3 := by
  constructor <;> decide

/-- C1 amended: each connection-classified failure triggers exactly one
reconnection attempt, followed — only if the reconnection succeeds — by
exactly one retry of the original operation via a full recursive call (so
further rounds happen only when the retry itself fails with another
connection-classified error); if the reconnection fails there is no retry;
and in both terminal failure cases the surfaced error message is the
original one wrapped with the `MCP client error: ` prefix, not unchanged. -/
theorem C1_amended (msg : McpMessage) (s : Sys) (m1 m2 : String)
    (clk clk2 r2 : Bool)
    (hc : s.isConnected = true) (hm : s.mcpClient.isSome = true)
    (hflag : s.isInitializing = false)
    (h1 : isConnectionError m1 = true) (h2 : isConnectionError m2 = false) :
    (sendToMcpServer msg [⟨.err m1, true, clk⟩, ⟨.err m2, r2, clk2⟩] s).1
        = .err ("MCP client error: " ++ m2) ∧
    (sendToMcpServer msg [⟨.err m1, true, clk⟩, ⟨.err m2, r2, clk2⟩] s).2.2 = 2 ∧
    (sendToMcpServer msg [⟨.err m1, false, clk⟩] s).1
        = .err ("MCP client error: " ++ m1) ∧
    (sendToMcpServer msg [⟨.err m1, false, clk⟩] s).2.2 = 1 := by
  rcases hmc : s.mcpClient with _ | c
  · simp [hmc] at hm
  · refine ⟨?_, ?_, ?_, ?_⟩ <;>
      simp [sendToMcpServer, initializeMcpClient, closeStaleClient,
        setupConnectionMonitoring, hc, hmc, hflag, h1, h2, apply_ite]

/-- Witness for C1 amended at a concrete connected state. -/
theorem C1_witness :
    (sendToMcpServer pingMsg
        [⟨.err "connection closed", true, true⟩, ⟨.err "boom", true, true⟩] connectedSys).1
        = .err ("MCP client error: " ++ "boom") ∧
    (sendToMcpServer pingMsg
        [⟨.err "connection closed", true, true⟩, ⟨.err "boom", true, true⟩] connectedSys).2.2
        = 2 ∧
    (sendToMcpServer pingMsg [⟨.err "connection closed", false, true⟩] connectedSys).1
        = .err ("MCP client error: " ++ "connection closed") ∧
    (sendToMcpServer pingMsg [⟨.err "connection closed", false, true⟩] connectedSys).2.2 = 1 :=
  C1_amended pingMsg connectedSys "connection closed" "boom" true true true
    (by decide) (by decide) (by decide) (by decide) (by decide)

/-- C2 counterexample: starting from the initial `Disconnected` state with
every open failing, after exactly `MAX_RECONNECT_ATTEMPTS` (5) consecutive
failed open attempts a further automatic retry IS still scheduled
(`pending = 1`, so a sixth open attempt will fire), and the reconnect
counter stands at 4 — it was not incremented for each of the five failed
connect attempts. -/
theorem C2_counterexample :
    (runEv [.startup false true, .retry false true, .retry false true,
        .retry false true, .retry false true]).connects = 5 ∧
    (runEv [.startup false true, .retry false true, .retry false true,
        .retry false true, .retry false true]).pending = 1 ∧
    (runEv [.startup false true, .retry false true, .retry false true,
        .retry false true, .retry false true]).reconnectAttempts = 4 := by
  refine ⟨?_, ?_, ?_⟩ <;> decide

/-- C2 amended: with every open failing, the run from the initial state
performs the startup attempt plus `MAX_RECONNECT_ATTEMPTS` scheduled
retries — six failed connect attempts in total; the counter, incremented
once each time a scheduled retry fires, then equals 5; after that no retry
is scheduled, the state remains `Disconnected`, every further event leaves
the exhausted state unchanged, and in every reachable state the counter
never exceeds `MAX_RECONNECT_ATTEMPTS`. -/
theorem C2_amended :
    (exhaustedSys.connects = 6 ∧ exhaustedSys.pending = 0 ∧
      exhaustedSys.isConnected = false ∧
      exhaustedSys.reconnectAttempts = MAX_RECONNECT_ATTEMPTS) ∧
    (∀ es : List Event, es.foldl stepEv exhaustedSys = exhaustedSys) ∧
    (∀ s : Sys, ReachableSys s → s.reconnectAttempts ≤ MAX_RECONNECT_ATTEMPTS) := by
  refine ⟨⟨by decide, by decide, by decide, by decide⟩, ?_, ?_⟩
  · exact runFrom_fix exhaustedSys (by decide) (by decide) (by decide) (by decide)
  · rintro s ⟨es, rfl⟩
    exact (runEv_good es).2.1

/-- Witness for C2 amended at concrete inputs. -/
theorem C2_witness :
    ([ Event.tick true true true ].foldl stepEv exhaustedSys = exhaustedSys) ∧
    (runEv []).reconnectAttempts ≤ MAX_RECONNECT_ATTEMPTS :=
  ⟨C2_amended.2.1 [Event.tick true true true],
   C2_amended.2.2 (runEv []) ⟨[], rfl⟩⟩

/-- C3 counterexample: a reachable state with two live health-check timers.
After a successful startup (one timer), a forwarded call fails with a
connection-classified error and the reconnection succeeds: the forward path
sets `isConnected = false` and reconnects without ever cancelling the
existing interval, and the successful reconnection starts a second one. -/
theorem C3_counterexample :
    (runEv [.startup true true,
        .forward pingMsg [⟨.err "connection closed", true, true⟩, ⟨.ok 7, true, true⟩]]).timers
      = 2 := by
  decide

/-- C3 amended: the health-check path itself never duplicates timers — a
failed probe cancels its own interval and marks the state disconnected
before reconnecting, so after it the timer count is unchanged when the
reconnection succeeds and one lower when it fails (and the state is then
disconnected); but an exit from `Connected` through the forward path does
not cancel the existing timer, so a forward-path reconnection adds a fresh
timer while the old one stays live — the timer count grows by one and two
timers can be active simultaneously. -/
theorem C3_amended (s : Sys) (r clk : Bool) (msg : McpMessage) (m : String)
    (v : Nat) (r2 c2 : Bool)
    (hc : s.isConnected = true) (hm : s.mcpClient.isSome = true)
    (hflag : s.isInitializing = false) (ht : s.timers ≠ 0)
    (hce : isConnectionError m = true) :
    ((healthTick false r clk s).timers = if r then s.timers else s.timers - 1) ∧
    ((healthTick false false clk s).isConnected = false) ∧
    ((sendToMcpServer msg [⟨.err m, true, clk⟩, ⟨.ok v, r2, c2⟩] s).2.1.timers
        = s.timers + 1) := by
  rcases hmc : s.mcpClient with _ | c
  · simp [hmc] at hm
  · refine ⟨?_, ?_, ?_⟩
    · cases r
      · simp [healthTick, initializeMcpClient, closeStaleClient,
          setupConnectionMonitoring, hc, hmc, hflag, ht, apply_ite]
      · simp [healthTick, initializeMcpClient, closeStaleClient,
          setupConnectionMonitoring, hc, hmc, hflag, ht, apply_ite]
        omega
    · simp [healthTick, initializeMcpClient, closeStaleClient,
        setupConnectionMonitoring, hc, hmc, hflag, ht, apply_ite]
    · simp [sendToMcpServer, initializeMcpClient, closeStaleClient,
        setupConnectionMonitoring, hc, hmc, hflag, hce, apply_ite]

/-- Witness for C3 amended at the concrete connected startup state. -/
theorem C3_witness :
    ((healthTick false true true connectedSys).timers
        = if true then connectedSys.timers else connectedSys.timers - 1) ∧
    ((healthTick false false true connectedSys).isConnected = false) ∧
    ((sendToMcpServer pingMsg [⟨.err "connection closed", true, true⟩, ⟨.ok 7, true, true⟩]
        connectedSys).2.1.timers = connectedSys.timers + 1) :=
  C3_amended connectedSys true true pingMsg "connection closed" 7 true true
    (by decide) (by decide) (by decide) (by decide) (by decide)

/-- C9: in every reachable state at most one client handle is live — the
open-handle set is exactly the current `mcpClient` reference; when
`initializeMcpClient` runs its main path with a stale client present, after
the call only the freshly created handle is open (the stale one was closed
and its reference dropped before the new client was created, so the stale
id is gone from the open set); and close errors are swallowed: the result
of the call does not depend on whether the stale client's `close`
succeeded. -/
theorem C9_single_live_handle (s : Sys) (c : Nat) (cok clk : Bool)
    (hs : ReachableSys s)
    (hflag : s.isInitializing = false)
    (hg : (s.isConnected && s.mcpClient.isSome) = false)
    (hmc : s.mcpClient = some c) :
    s.openHandles.length ≤ 1 ∧
    (initializeMcpClient cok clk s).2.mcpClient = some s.nextId ∧
    (initializeMcpClient cok clk s).2.openHandles = [s.nextId] ∧
    c ∉ (initializeMcpClient cok clk s).2.openHandles ∧
    initializeMcpClient cok clk s = initializeMcpClient cok true s := by
  obtain ⟨es, rfl⟩ := hs
  have hgood := runEv_good es
  set s := runEv es
  have hH : s.openHandles = s.mcpClient.toList := hgood.2.2.2.2.2.2.1
  have hfresh : c < s.nextId := hgood.2.2.2.2.2.2.2 c hmc
  have hH1 : s.openHandles = [c] := by rw [hH, hmc]; rfl
  have hic : s.isConnected = false := by
    rcases hv : s.isConnected
    · rfl
    · simp [hv, hmc] at hg
  have hg' : ¬((s.isConnected && s.mcpClient.isSome) = true) := by simp [hg]
  refine ⟨by rw [hH1]; exact Nat.le_refl 1, ?_, ?_, ?_, ?_⟩
  · cases cok <;>
      simp [initializeMcpClient, closeStaleClient, setupConnectionMonitoring,
        hflag, hg', hmc, hic, apply_ite]
  · cases cok <;>
      simp [initializeMcpClient, closeStaleClient, setupConnectionMonitoring,
        hflag, hg', hmc, hic, hH1, apply_ite]
  · cases cok <;>
      simp [initializeMcpClient, closeStaleClient, setupConnectionMonitoring,
        hflag, hg', hmc, hic, hH1, apply_ite] <;>
      omega
  · rfl

/-- Witness for C9 at the concrete state after a failed startup attempt
(stale unconnected client id 0 present). -/
theorem C9_witness :
    (runEv [.startup false true]).openHandles.length ≤ 1 ∧
    (initializeMcpClient true false (runEv [.startup false true])).2.mcpClient
        = some (runEv [.startup false true]).nextId ∧
    (initializeMcpClient true false (runEv [.startup false true])).2.openHandles
        = [(runEv [.startup false true]).nextId] ∧
    0 ∉ (initializeMcpClient true false (runEv [.startup false true])).2.openHandles ∧
    initializeMcpClient true false (runEv [.startup false true])
        = initializeMcpClient true true (runEv [.startup false true]) :=
  C9_single_live_handle (runEv [.startup false true]) 0 true false
    ⟨[.startup false true], rfl⟩ (by decide) (by decide) (by decide)

/-- C8: the `/tools/get-cookie` contract.  An invalid-JSON body yields 400
with no state change and no backend call; a parsed body without a (truthy)
`url` yields 400 likewise; a present `url` with the client not connected
yields 503; a connected client whose backend call returns a value yields
200 with the capability-call result verbatim under `response` and the sent
message under `request`; and a backend failure yields 500 carrying the
error message under `details` together with a `suggestion`. -/
theorem C8_get_cookie_contract (s : Sys) (tr : List Attempt) (u : UrlField) :
    (handleGetCookie .invalid tr s = (.badRequestJson, s, 0) ∧
      HttpResponse.statusCode .badRequestJson = 400) ∧
    (u.truthy = false → handleGetCookie (.obj u) tr s = (.badRequestUrl, s, 0)) ∧
    ((s.mcpClient.isNone || !s.isConnected) = true → u.truthy = true →
      (handleGetCookie (.obj u) tr s).1.statusCode = 503 ∧
      (handleGetCookie (.obj u) tr s).2.1 = s ∧
      (handleGetCookie (.obj u) tr s).2.2 = 0) ∧
    (∀ (v : Nat) (a : Attempt) (rest : List Attempt),
      (s.mcpClient.isNone || !s.isConnected) = false → u.truthy = true →
      a.outcome = .ok v → tr = a :: rest →
      handleGetCookie (.obj u) tr s
        = (.ok200 ("Cookies retrieved from " ++ u.render) v
            ⟨"tools/call", "chrome_get_cookie", u.render⟩, s, 1)) ∧
    (∀ (em : String) (a : Attempt) (rest : List Attempt),
      (s.mcpClient.isNone || !s.isConnected) = false → u.truthy = true →
      a.outcome = .err em → isConnectionError em = false → tr = a :: rest →
      (handleGetCookie (.obj u) tr s).1
          = .serverError ("MCP client error: " ++ em)
              ("Make sure the MCP server is running at http://127.0.0.1:12306/mcp") ∧
      (handleGetCookie (.obj u) tr s).1.statusCode = 500) := by
  refine ⟨⟨rfl, rfl⟩, ?_, ?_, ?_, ?_⟩
  · intro hu
    simp [handleGetCookie, hu]
  · intro hg hu
    refine ⟨?_, ?_, ?_⟩ <;> simp [handleGetCookie, hu, hg, HttpResponse.statusCode]
  · intro v a rest hg hu ho htr
    subst htr
    have hg' : ¬((s.mcpClient.isNone || !s.isConnected) = true) := by simp [hg]
    simp [handleGetCookie, sendToMcpServer, hu, hg', ho]
  · intro em a rest hg hu ho hce htr
    subst htr
    have hg' : ¬((s.mcpClient.isNone || !s.isConnected) = true) := by simp [hg]
    constructor <;>
      simp [handleGetCookie, sendToMcpServer, hu, hg', ho, hce, HttpResponse.statusCode]

/-- Witness for C8 at concrete inputs: a successful call on the connected
startup state returns 200 with the backend value echoed verbatim. -/
theorem C8_witness :
    handleGetCookie (.obj (.str "https://example.com")) [⟨.ok 7, true, true⟩] connectedSys
      = (.ok200 ("Cookies retrieved from " ++ (UrlField.str "https://example.com").render) 7
          ⟨"tools/call", "chrome_get_cookie", (UrlField.str "https://example.com").render⟩,
        connectedSys, 1) :=
  (C8_get_cookie_contract connectedSys [⟨.ok 7, true, true⟩] (.str "https://example.com")).2.2.2.1
    7 ⟨.ok 7, true, true⟩ [] (by decide) (by decide) rfl rfl
